import Mathlib

/-!
Shallow embedding of the defect risk classification and inspection-summary
aggregation engine of `src/analysis.py` (Column Normalizer, Risk Classifier,
Inspection Aggregator, Inspection Comparator).

Modelling conventions:
* Python floats are modelled as rationals (`ℚ`); every constant of the code
  (0.8, 0.5, 3.0, 40, 25, 100, 1.0) and every input of the claims is a short
  decimal literal, on which float comparison and exact rational comparison
  agree.  Non-integer rationals are written `mkRat n d` (the rational n/d),
  which the kernel evaluates.
* A missing value (`np.nan` after `row.get`) is `Option.none`; pandas
  `pd.notna` is `Option.isSome`.
* Python strings are handled through `List Char`; `str.lower()` is modelled
  for the ASCII and Russian Cyrillic ranges, which cover every string the
  program compares.
* Mutation of a DataFrame is made explicit: `compute_inspection_summary`
  returns, next to the summary, the frame the caller sees after the call.
-/

/-! ## Python string primitives -/

/-- Model of Python `str.lower()` on one character, for the ranges the
program meets: ASCII `A`–`Z` and Cyrillic `А`–`Я` (U+0410–U+042F) map down
by the usual offsets; `Ё` (U+0401) maps to `ё` (U+0451); everything else is
unchanged. -/
def pyLowerChar (c : Char) : Char :=
  if 'A' ≤ c ∧ c ≤ 'Z' then Char.ofNat (c.toNat + 32)
  else if 0x410 ≤ c.toNat ∧ c.toNat ≤ 0x42F then Char.ofNat (c.toNat + 0x20)
  else if c.toNat = 0x401 then Char.ofNat 0x451
  else c

/-- Model of Python `s.lower()` on the character list of a string. -/
def pyLower (s : List Char) : List Char := s.map pyLowerChar

/-- Helper for the substring test: does `hay` start with `needle`? -/
def leadsWith : List Char → List Char → Bool
  | [], _ => true
  | _ :: _, [] => false
  | a :: as, b :: bs => a = b && leadsWith as bs

/-- Model of Python `needle in hay` for strings: `needle` occurs as a
contiguous substring of `hay`. -/
def containsSub (needle : List Char) : List Char → Bool
  | [] => leadsWith needle []
  | c :: rest => leadsWith needle (c :: rest) || containsSub needle rest

/-- Whitespace test of Python `str.strip()` (ASCII whitespace, which is all
the cleaned numeric strings contain). -/
def isPySpace (c : Char) : Bool :=
  c = ' ' || c = '\t' || c = '\n' || c = '\r' || c = Char.ofNat 0x0b || c = Char.ofNat 0x0c

/-- Model of Python `s.strip()`: drop whitespace from both ends. -/
def pyStrip (s : List Char) : List Char :=
  ((s.dropWhile isPySpace).reverse.dropWhile isPySpace).reverse

/-- Model of Python `s.replace(',', '.')` — the pattern is a single
character, so a character-wise map is exact. -/
def replaceCommaDot (s : List Char) : List Char :=
  s.map (fun c => if c = ',' then '.' else c)

/-! ## Python `float(str)` on finite decimal literals

The builtin `float` accepts an optional sign, digits with an optional
decimal point, and an optional exponent part.  Special forms (`inf`, `nan`,
`_` digit grouping) are not representable in `ℚ` and never arise in this
pipeline's data; they are outside the model. -/

/-- Numeric value of a digit run, most significant first. -/
def digitsVal (ds : List Char) : ℕ :=
  ds.foldl (fun a c => 10 * a + (c.toNat - 48)) 0

/-- Strip one optional leading sign, returning the sign as ±1. -/
def takeSign : List Char → ℤ × List Char
  | '+' :: r => (1, r)
  | '-' :: r => (-1, r)
  | r => (1, r)

/-- Value of a decimal literal: sign, digit run, number of those digits that
sit after the point, decimal exponent.  Equal to
sign · digits · 10^e / 10^fracLen, built with `mkRat` so it evaluates. -/
def sciVal (sign : ℤ) (digits : ℕ) (fracLen : ℕ) (e : ℤ) : ℚ :=
  if 0 ≤ e then mkRat (sign * digits * 10 ^ e.toNat) (10 ^ fracLen)
  else mkRat (sign * digits) (10 ^ fracLen * 10 ^ (-e).toNat)

/-- Parse the exponent suffix (after `e`/`E`): optional sign then digits,
and nothing may follow. -/
def parseExp (r : List Char) : Option ℤ :=
  let (esign, r1) := takeSign r
  let eds := r1.takeWhile Char.isDigit
  let rest := r1.dropWhile Char.isDigit
  if eds.isEmpty || !rest.isEmpty then none
  else some (esign * (digitsVal eds : ℤ))

/-- Model of Python `float(s)` on finite decimal literals; `none` models the
`ValueError` raised on an unparsable string. -/
def pyFloat (s : List Char) : Option ℚ :=
  let (sign, r0) := takeSign s
  let intds := r0.takeWhile Char.isDigit
  let r1 := r0.dropWhile Char.isDigit
  let fracds := match r1 with
    | '.' :: r2 => r2.takeWhile Char.isDigit
    | _ => []
  let r3 := match r1 with
    | '.' :: r2 => r2.dropWhile Char.isDigit
    | r2 => r2
  if intds.isEmpty && fracds.isEmpty then none
  else
    match r3 with
    | [] => some (sciVal sign (digitsVal (intds ++ fracds)) fracds.length 0)
    | 'e' :: r4 => (parseExp r4).map (sciVal sign (digitsVal (intds ++ fracds)) fracds.length)
    | 'E' :: r4 => (parseExp r4).map (sciVal sign (digitsVal (intds ++ fracds)) fracds.length)
    | _ => none

/-! ## Python values and `clean_numeric` (analysis.py lines 43–55) -/

/-- Python values a raw cell passed to `clean_numeric` can hold. -/
inductive PyVal where
  | pynone : PyVal
  | nan : PyVal
  | int (n : ℤ) : PyVal
  | float (q : ℚ) : PyVal
  | str (s : String) : PyVal
deriving DecidableEq

/-- Model of `pd.isna(val)`: true for `None` and `np.nan`. -/
def pd_isna : PyVal → Bool
  | .pynone => true
  | .nan => true
  | _ => false

/-- Embedding of `clean_numeric(val)` of analysis.py: missing/empty →
`np.nan` (here `none`); `int`/`float` → the value as a float; otherwise
stringify, replace commas with dots, strip, and parse as a float, a parse
failure being caught and mapped to `np.nan`. -/
def clean_numeric (val : PyVal) : Option ℚ :=
  if pd_isna val || (val = PyVal.str "") then none
  else match val with
    | .int n => some (n : ℚ)
    | .float q => some q
    | .str s => pyFloat (pyStrip (replaceCommaDot s.data))
    | _ => none

/-! ## Defect records and the Risk Classifier (analysis.py lines 95–131) -/

/-- One numeric cell as the classifier's `row.get` sees it: the column can
be absent from the frame, the cell can be `NaN`, or it holds a number. -/
inductive NumCell where
  | absent : NumCell
  | nan : NumCell
  | val (q : ℚ) : NumCell
deriving DecidableEq

/-- A string-valued cell (`repair_flag`). -/
inductive StrCell where
  | absent : StrCell
  | nan : StrCell
  | val (s : String) : StrCell
deriving DecidableEq

/-- Model of `str(row.get('repair_flag', ''))`: the default `''` when the
column is absent, and Python's `str(np.nan) = "nan"` for a missing cell. -/
def strOfCell : StrCell → String
  | .absent => ""
  | .nan => "nan"
  | .val s => s

/-- Model of `row.get(col, default)` for a numeric cell, with `NaN` mapped
to `none` (so `pd.notna` becomes `Option.isSome`). -/
def cellGet (c : NumCell) (dflt : ℚ) : Option ℚ :=
  match c with
  | .absent => some dflt
  | .nan => none
  | .val q => some q

/-- Model of `pd.notna(x) and x < t` after a `row.get`. -/
def notnaLt (v : Option ℚ) (t : ℚ) : Bool :=
  match v with
  | some q => q < t
  | none => false

/-- Model of `pd.notna(x) and x > t` after a `row.get`. -/
def notnaGt (v : Option ℚ) (t : ℚ) : Bool :=
  match v with
  | some q => t < q
  | none => false

/-- Fields of a defect record that the classifier and the aggregated
statistics read. -/
structure DefectRow where
  repair_flag : StrCell
  erf_b31g : NumCell
  erf_dnv : NumCell
  wall_thickness_remaining_mm : NumCell
  depth_pct : NumCell
deriving DecidableEq

/-- Shape of `RISK_THRESHOLDS` of analysis.py. -/
structure RiskThresholds where
  erf_high_risk : ℚ
  erf_medium_risk : ℚ
  wall_thickness_critical : ℚ
  depth_critical : ℚ
  depth_high : ℚ

/-- The constants of analysis.py lines 6–12: 0.8, 0.5, 3.0 mm, 40 %, 25 %. -/
def RISK_THRESHOLDS : RiskThresholds :=
  { erf_high_risk := mkRat 8 10
    erf_medium_risk := mkRat 5 10
    wall_thickness_critical := 3
    depth_critical := 40
    depth_high := 25 }

/-- First repair-flag marker (already lower-case in the source). -/
def mandatoryMarker : List Char := "обязателен".data

/-- Second repair-flag marker (already lower-case in the source). -/
def immediateMarker : List Char := "немедленн".data

/-- Embedding of `assign_risk_class(row)` of analysis.py, rule for rule:
repair-flag marker → High; `erf_b31g`/`erf_dnv` below 0.8 → High; remaining
wall below 3.0 → High; depth above 40 → High; then the Medium tier on
`erf < 0.5` or `depth > 25`; otherwise Low.  The `row.get` defaults
(1.0, 100, 0) are those of the source. -/
def assign_risk_class (row : DefectRow) : String :=
  if containsSub mandatoryMarker (pyLower (strOfCell row.repair_flag).data)
      || containsSub immediateMarker (pyLower (strOfCell row.repair_flag).data) then "High"
  else if notnaLt (cellGet row.erf_b31g 1) RISK_THRESHOLDS.erf_high_risk then "High"
  else if notnaLt (cellGet row.erf_dnv 1) RISK_THRESHOLDS.erf_high_risk then "High"
  else if notnaLt (cellGet row.wall_thickness_remaining_mm 100) RISK_THRESHOLDS.wall_thickness_critical then "High"
  else if notnaGt (cellGet row.depth_pct 0) RISK_THRESHOLDS.depth_critical then "High"
  else if notnaLt (cellGet row.erf_b31g 1) RISK_THRESHOLDS.erf_medium_risk then "Medium"
  else if notnaLt (cellGet row.erf_dnv 1) RISK_THRESHOLDS.erf_medium_risk then "Medium"
  else if notnaGt (cellGet row.depth_pct 0) RISK_THRESHOLDS.depth_high then "Medium"
  else "Low"


/-! ## DataFrames, the Inspection Aggregator (analysis.py lines 134–180)

A frame is its column-name list plus its rows; `compute_inspection_summary`
copies the frame (`df = defects_df.copy()`) and enriches only the copy, so
it is embedded as returning both the summary and the frame the caller holds
after the call.  The `by_type` / `by_repair_flag` frequency maps of the
summary are plain `value_counts` projections no claim touches and are left
out of the model. -/

/-- A defect table: column names and rows. -/
structure Defects where
  cols : List String
  rows : List DefectRow
deriving DecidableEq

/-- The enriched copy: each row paired with its derived `risk_class` and
`repair_priority`, and the two derived column names appended. -/
structure EnrichedDefects where
  cols : List String
  rows : List (DefectRow × String × ℕ)
deriving DecidableEq

/-- Inspection metadata (`inspection_meta`), each key independently
optional. -/
structure Meta where
  pipeline_name : Option String
  segment_km : Option String
  diameter_mm : Option String
  method : Option String
  start_date : Option String

/-- Model of `inspection_meta.get(key, 'N/A')`. -/
def metaGet (v : Option String) : String := v.getD "N/A"

/-- The `overview` block of the summary. -/
structure Overview where
  total_defects : ℕ
  pipeline_name : String
  segment_km : String
  diameter_mm : String
  method : String
  inspection_date : String
deriving DecidableEq

/-- The `by_risk` block: the three tier counts, always all present. -/
structure ByRisk where
  High : ℕ
  Medium : ℕ
  Low : ℕ
deriving DecidableEq

/-- A scalar statistic of the summary: Python `None` when the source column
is absent, `NaN` when present but with no non-missing value, else the
number. -/
inductive Stat where
  | null : Stat
  | nanv : Stat
  | val (q : ℚ) : Stat
deriving DecidableEq

/-- The five-field `statistics` block. -/
structure Statistics where
  avg_depth_pct : Stat
  max_depth_pct : Stat
  avg_erf_b31g : Stat
  min_erf_b31g : Stat
  avg_wall_remaining_mm : Stat
deriving DecidableEq

/-- The Inspection Summary returned by the aggregator. -/
structure Summary where
  overview : Overview
  by_risk : ByRisk
  statistics : Statistics
  table : EnrichedDefects
deriving DecidableEq

/-- Numeric content of a cell (`none` for absent or `NaN`), as pandas
aggregations see it (they skip missing values). -/
def cellVal : NumCell → Option ℚ
  | .val q => some q
  | _ => none

/-- Non-missing values of one numeric column. -/
def colVals (f : DefectRow → NumCell) (rows : List DefectRow) : List ℚ :=
  rows.filterMap (fun r => cellVal (f r))

/-- Sum of a list of rationals. -/
def listSum (vs : List ℚ) : ℚ := vs.foldl (fun a v => a + v) 0

/-- Model of `Series.mean()` over the non-missing values: `NaN` (here
`none`) when there are none. -/
def seriesMean (vs : List ℚ) : Option ℚ :=
  if vs.length = 0 then none else some (listSum vs / (vs.length : ℚ))

/-- Model of `Series.max()` over the non-missing values. -/
def seriesMax (vs : List ℚ) : Option ℚ :=
  vs.foldl (fun acc v =>
    match acc with
    | none => some v
    | some m => some (max m v)) none

/-- Model of `Series.min()` over the non-missing values. -/
def seriesMin (vs : List ℚ) : Option ℚ :=
  vs.foldl (fun acc v =>
    match acc with
    | none => some v
    | some m => some (min m v)) none

/-- Model of `float(df[c].agg()) if c in df.columns else None`: `null` for
an absent column, `NaN` for an empty aggregation, else the value. -/
def statIf (cols : List String) (c : String) (v : Option ℚ) : Stat :=
  if c ∈ cols then
    match v with
    | some q => Stat.val q
    | none => Stat.nanv
  else Stat.null

/-- Embedding of the inner `assign_priority(row)` of
`compute_inspection_summary`, on the row's `risk_class` value. -/
def assign_priority (risk_class : String) : ℕ :=
  if risk_class = "High" then 1
  else if risk_class = "Medium" then 2
  else 3

/-- Embedding of `compute_inspection_summary(defects_df, inspection_meta)`.
The first component is the summary; the second is the frame the caller
holds after the call — the source line `df = defects_df.copy()` makes all
enrichment act on the copy `df`, so it equals the input. -/
def compute_inspection_summary (defects_df : Defects) (inspection_meta : Meta) :
    Summary × Defects :=
  let df : EnrichedDefects :=
    { cols := defects_df.cols ++ ["risk_class", "repair_priority"]
      rows := defects_df.rows.map (fun r =>
        let rc := assign_risk_class r
        (r, rc, assign_priority rc)) }
  ({ overview :=
      { total_defects := df.rows.length
        pipeline_name := metaGet inspection_meta.pipeline_name
        segment_km := metaGet inspection_meta.segment_km
        diameter_mm := metaGet inspection_meta.diameter_mm
        method := metaGet inspection_meta.method
        inspection_date := metaGet inspection_meta.start_date }
     by_risk :=
      { High := df.rows.countP (fun er => er.2.1 == "High")
        Medium := df.rows.countP (fun er => er.2.1 == "Medium")
        Low := df.rows.countP (fun er => er.2.1 == "Low") }
     statistics :=
      { avg_depth_pct := statIf df.cols "depth_pct"
          (seriesMean (colVals DefectRow.depth_pct defects_df.rows))
        max_depth_pct := statIf df.cols "depth_pct"
          (seriesMax (colVals DefectRow.depth_pct defects_df.rows))
        avg_erf_b31g := statIf df.cols "erf_b31g"
          (seriesMean (colVals DefectRow.erf_b31g defects_df.rows))
        min_erf_b31g := statIf df.cols "erf_b31g"
          (seriesMin (colVals DefectRow.erf_b31g defects_df.rows))
        avg_wall_remaining_mm := statIf df.cols "wall_thickness_remaining_mm"
          (seriesMean (colVals DefectRow.wall_thickness_remaining_mm defects_df.rows)) }
     table := df },
   defects_df)

/-! ## The Inspection Comparator (analysis.py lines 183–206) -/

/-- Nearest integer to the fraction num/den (den positive), ties to even —
the rounding of Python's builtin `round` — in integer arithmetic so the
kernel evaluates it. -/
def roundHalfEven (num : ℤ) (den : ℤ) : ℤ :=
  let f := Int.fdiv num den
  let rem := num - f * den
  if 2 * rem < den then f
  else if den < 2 * rem then f + 1
  else if f % 2 = 0 then f else f + 1

/-- Model of Python `round(x, 1)` on exact rationals: x·10 is the fraction
x.num·10 / x.den, rounded half-to-even and put back over 10. -/
def pyRound1 (q : ℚ) : ℚ := mkRat (roundHalfEven (q.num * 10) q.den) 10

/-- The Delta produced by the comparator.  The two percentage keys are
absent (`none`) in the no-previous branch of the source, which returns a
dict without them. -/
structure Delta where
  defects_change : ℤ
  high_risk_change : ℤ
  defects_change_pct : Option ℚ
  high_risk_change_pct : Option ℚ
  has_previous : Bool
deriving DecidableEq

/-- Embedding of `compare_with_previous(current_summary, previous_summary)`;
`none` models a falsy (missing) previous summary. -/
def compare_with_previous (current_summary : Summary) (previous_summary : Option Summary) :
    Delta :=
  match previous_summary with
  | none =>
    { defects_change := 0
      high_risk_change := 0
      defects_change_pct := none
      high_risk_change_pct := none
      has_previous := false }
  | some prev =>
    let curr_total : ℤ := current_summary.overview.total_defects
    let prev_total : ℤ := prev.overview.total_defects
    let curr_high : ℤ := current_summary.by_risk.High
    let prev_high : ℤ := prev.by_risk.High
    { defects_change := curr_total - prev_total
      high_risk_change := curr_high - prev_high
      defects_change_pct := some (pyRound1
        (if 0 < prev_total then ((curr_total : ℚ) - (prev_total : ℚ)) / (prev_total : ℚ) * 100 else 0))
      high_risk_change_pct := some (pyRound1
        (if 0 < prev_high then ((curr_high : ℚ) - (prev_high : ℚ)) / (prev_high : ℚ) * 100 else 0))
      has_previous := true }

/-! ## The Column Normalizer's header renaming (analysis.py lines 64–72) -/

/-- The `COLUMN_MAPPING` dict of analysis.py, in its declared (insertion)
order, which is the order `COLUMN_MAPPING.items()` iterates in. -/
def COLUMN_MAPPING : List (String × String) :=
  [("№ секции", "section_id"),
   ("длина секции [м]", "section_length_m"),
   ("прив.ТС [мм]", "wall_thickness_mm"),
   ("расст. до шва против теч. [м]", "distance_to_weld_m"),
   ("измер. расст. [м]", "measured_distance_m"),
   ("тип аномалии", "anomaly_type"),
   ("идентификация", "identification"),
   ("комментарий", "comment"),
   ("ориентация", "orientation"),
   ("длина [мм]", "defect_length_mm"),
   ("ширина [мм]", "defect_width_mm"),
   ("глубина [%]", "depth_pct"),
   ("средняя глубина [%]", "depth_avg_pct"),
   ("абс. глубина [мм]", "depth_abs_mm"),
   ("остат. ТС [мм]", "wall_thickness_remaining_mm"),
   ("рез. глубина [%]", "depth_result_pct"),
   ("уменьш. ВД [%]", "pressure_reduction_pct"),
   ("ERF B31G", "erf_b31g"),
   ("ERF (случай 1)", "erf_case1"),
   ("ERF (случай 2)", "erf_case2"),
   ("ERF DNV", "erf_dnv"),
   ("локация на поверхн.", "surface_location"),
   ("класс лок.", "local_class"),
   ("Ремонт", "repair_flag")]

/-- The inner loop of `normalize_defects` over one raw column: scan the
mapping entries in order, and on the first key that is a case-insensitive
substring of the header, stop (`break`) with that entry's target. -/
def renameFor : List (String × String) → String → Option String
  | [], _ => none
  | (key, target) :: rest, old_col =>
    if containsSub (pyLower key.data) (pyLower old_col.data) then some target
    else renameFor rest old_col

/-- New name of a raw column under `normalize_defects`: the first matching
mapping target, or (`df.rename` ignoring unmapped columns) the original
name. -/
def renameColumn (old_col : String) : String :=
  (renameFor COLUMN_MAPPING old_col).getD old_col

/-- Renaming rule as the spec words it (for the refinement comparison with
`renameColumn`): the canonical target of the first mapping entry, in
declared order, whose key is a case-insensitive substring of the header;
a header matching no key passes through unchanged. -/
def renameColumnSpec (header : String) : String :=
  match COLUMN_MAPPING.find? (fun kv => containsSub (pyLower kv.1.data) (pyLower header.data)) with
  | some kv => kv.2
  | none => header


/-! ## Concrete records and summaries used by witnesses and counterexamples -/

/-- Record with every numeric field missing and no repair-flag column. -/
def allMissingRow : DefectRow := ⟨.absent, .nan, .nan, .nan, .nan⟩

/-- The C2 scenario record {erf_b31g: 0.45, depth_pct: 10,
wall_thickness_remaining_mm: 8, repair_flag: ""}. -/
def scenarioErf045 : DefectRow := ⟨.val "", .val (mkRat 45 100), .nan, .val 8, .val 10⟩

/-- The C3 scenario record of the spec {erf_b31g: 0.6, depth_pct: 30,
wall_thickness_remaining_mm: 10, repair_flag: ""}. -/
def scenarioErf06 : DefectRow := ⟨.val "", .val (mkRat 6 10), .nan, .val 10, .val 30⟩

/-- The C3 scenario with the ERF raised to 0.85 so that it really fails
every High-tier rule. -/
def scenarioErf085 : DefectRow := ⟨.val "", .val (mkRat 85 100), .nan, .val 10, .val 30⟩

/-- Record with a mandatory-repair flag (upper-case, to exercise the
case-insensitive match) and everything else missing. -/
def scenarioMandatory : DefectRow := ⟨.val "Ремонт ОБЯЗАТЕЛЕН", .nan, .nan, .nan, .nan⟩

/-- A summary with the given total and High count (the other fields at
their neutral values), for exercising the comparator. -/
def summaryOf (total high : ℕ) : Summary :=
  { overview :=
      { total_defects := total
        pipeline_name := "N/A"
        segment_km := "N/A"
        diameter_mm := "N/A"
        method := "N/A"
        inspection_date := "N/A" }
    by_risk := { High := high, Medium := 0, Low := 0 }
    statistics :=
      { avg_depth_pct := .null
        max_depth_pct := .null
        avg_erf_b31g := .null
        min_erf_b31g := .null
        avg_wall_remaining_mm := .null }
    table := { cols := [], rows := [] } }

/-- A one-row table, for exercising the aggregator. -/
def sampleDf : Defects := ⟨["depth_pct"], [scenarioErf045]⟩

/-- Metadata with every key missing. -/
def emptyMeta : Meta := ⟨none, none, none, none, none⟩

/-! ## Helper lemmas -/

/-- The classifier ends in one of the three literal tiers: every branch of
its decision tree is one of them. -/
theorem assign_risk_class_cases (row : DefectRow) :
    assign_risk_class row = "High" ∨ assign_risk_class row = "Medium" ∨
      assign_risk_class row = "Low" := by
  unfold assign_risk_class
  repeat' split
  all_goals simp

/-- The `break`ing scan of `renameFor` is a first-match search. -/
theorem renameFor_eq_find (m : List (String × String)) (h : String) :
    renameFor m h =
      (m.find? (fun kv => containsSub (pyLower kv.1.data) (pyLower h.data))).map Prod.snd := by
  induction m with
  | nil => rfl
  | cons kv rest ih =>
    obtain ⟨k, v⟩ := kv
    by_cases hc : containsSub (pyLower k.data) (pyLower h.data) = true
    · simp [renameFor, hc]
    · simp only [Bool.not_eq_true] at hc
      simp [renameFor, hc, ih]

/-- Counting the three tiers over the classified rows covers each row
exactly once. -/
theorem count_levels (rows : List DefectRow) :
    rows.countP (fun r => assign_risk_class r == "High") +
      rows.countP (fun r => assign_risk_class r == "Medium") +
      rows.countP (fun r => assign_risk_class r == "Low") = rows.length := by
  induction rows with
  | nil => simp
  | cons r rs ih =>
    rcases assign_risk_class_cases r with h | h | h <;>
      simp [List.countP_cons, h, ih] <;> omega

/-! ## C1 -/

/-- C1: a defect record whose `repair_flag` text contains "обязателен" or
"немедленн" — matched case-insensitively, i.e. as a substring of the
lower-cased text — classifies `High`, whatever every other field holds. -/
theorem repair_flag_marker_forces_high (row : DefectRow)
    (h : containsSub mandatoryMarker (pyLower (strOfCell row.repair_flag).data) = true ∨
         containsSub immediateMarker (pyLower (strOfCell row.repair_flag).data) = true) :
    assign_risk_class row = "High" := by
  unfold assign_risk_class
  rcases h with h | h <;> simp [h]

/-- Witness for C1: an upper-case "Ремонт ОБЯЗАТЕЛЕН" flag with every ERF,
depth and wall-thickness field missing still classifies `High`. -/
theorem repair_flag_marker_forces_high_witness :
    assign_risk_class scenarioMandatory = "High" :=
  repair_flag_marker_forces_high scenarioMandatory (Or.inl (by decide))

/-! ## C2 -/

/-- C2: a record with `erf_b31g` present and below 0.8, or `erf_dnv`
present and below 0.8, classifies `High` (whatever tier the later rules
would give it). -/
theorem erf_below_high_threshold_forces_high (row : DefectRow)
    (h : (∃ q, row.erf_b31g = NumCell.val q ∧ q < RISK_THRESHOLDS.erf_high_risk) ∨
         (∃ q, row.erf_dnv = NumCell.val q ∧ q < RISK_THRESHOLDS.erf_high_risk)) :
    assign_risk_class row = "High" := by
  unfold assign_risk_class
  rcases h with ⟨q, hq, hlt⟩ | ⟨q, hq, hlt⟩ <;>
    simp [hq, cellGet, notnaLt, hlt]

/-- Witness for C2: the record {erf_b31g: 0.45, depth_pct: 10,
wall_thickness_remaining_mm: 8, repair_flag: ""} classifies `High` — the
High tier wins by rule order although the record also meets a Medium
condition. -/
theorem erf_below_high_threshold_forces_high_witness :
    assign_risk_class scenarioErf045 = "High" :=
  erf_below_high_threshold_forces_high scenarioErf045
    (Or.inl ⟨mkRat 45 100, rfl, by decide⟩)

/-! ## C3 -/

/-- Counterexample to C3 as stated: the spec's own scenario record
{erf_b31g: 0.6, depth_pct: 30, wall_thickness_remaining_mm: 10,
repair_flag: ""} does not classify `Medium` — 0.6 < 0.8, so the High-tier
ERF rule fires first and the record classifies `High`. -/
theorem medium_scenario_clashes :
    assign_risk_class scenarioErf06 ≠ "Medium" ∧
      assign_risk_class scenarioErf06 = "High" := by
  constructor
  · decide
  · decide

/-- C3 (amended): a record that triggers none of the five High-tier rules
and meets a Medium condition (`erf_b31g` below 0.5, or `erf_dnv` below 0.5,
or `depth_pct` above 25) classifies `Medium`; the scenario record is
repaired to {erf_b31g: 0.85, depth_pct: 30, wall_thickness_remaining_mm:
10, repair_flag: ""}, which really fails every High rule and is `Medium`
through depth 30 > 25. -/
theorem no_high_rule_and_medium_condition_forces_medium (row : DefectRow)
    (hm1 : containsSub mandatoryMarker (pyLower (strOfCell row.repair_flag).data) = false)
    (hm2 : containsSub immediateMarker (pyLower (strOfCell row.repair_flag).data) = false)
    (hb : notnaLt (cellGet row.erf_b31g 1) RISK_THRESHOLDS.erf_high_risk = false)
    (hd : notnaLt (cellGet row.erf_dnv 1) RISK_THRESHOLDS.erf_high_risk = false)
    (hw : notnaLt (cellGet row.wall_thickness_remaining_mm 100)
            RISK_THRESHOLDS.wall_thickness_critical = false)
    (hdep : notnaGt (cellGet row.depth_pct 0) RISK_THRESHOLDS.depth_critical = false)
    (hmed : notnaLt (cellGet row.erf_b31g 1) RISK_THRESHOLDS.erf_medium_risk = true ∨
            notnaLt (cellGet row.erf_dnv 1) RISK_THRESHOLDS.erf_medium_risk = true ∨
            notnaGt (cellGet row.depth_pct 0) RISK_THRESHOLDS.depth_high = true) :
    assign_risk_class row = "Medium" := by
  unfold assign_risk_class
  rcases hmed with h | h | h <;> simp [hm1, hm2, hb, hd, hw, hdep, h]

/-- Witness for amended C3: the repaired scenario record classifies
`Medium`. -/
theorem no_high_rule_and_medium_condition_forces_medium_witness :
    assign_risk_class scenarioErf085 = "Medium" :=
  no_high_rule_and_medium_condition_forces_medium scenarioErf085
    (by decide) (by decide) (by decide) (by decide) (by decide) (by decide)
    (Or.inr (Or.inr (by decide)))

/-! ## C7 -/

/-- C7: the classifier is total — on every record, over all combinations of
present, `NaN` and absent fields, it returns exactly one of the three
literal tiers (each branch of its decision tree is a literal, and a missing
numeric field never triggers its rule) — and the record with every numeric
field missing and no repair-flag text classifies `Low`. -/
theorem assign_risk_class_total :
    (∀ row : DefectRow,
      assign_risk_class row = "High" ∨ assign_risk_class row = "Medium" ∨
        assign_risk_class row = "Low") ∧
    assign_risk_class allMissingRow = "Low" :=
  ⟨assign_risk_class_cases, by decide⟩

/-! ## C10 -/

/-- C10: for a non-empty table the three `by_risk` counts — the `ByRisk`
record carries all three tiers by construction — sum exactly to
`overview.total_defects`, because every record gets exactly one tier. -/
theorem by_risk_counts_sum_to_total (df : Defects) (meta : Meta)
    (hne : df.rows ≠ []) :
    (compute_inspection_summary df meta).1.by_risk.High +
      (compute_inspection_summary df meta).1.by_risk.Medium +
      (compute_inspection_summary df meta).1.by_risk.Low =
      (compute_inspection_summary df meta).1.overview.total_defects := by
  have h := count_levels df.rows
  simp only [compute_inspection_summary, List.countP_map, List.length_map]
  simpa [Function.comp] using h

/-- Witness for C10: on the one-row sample table the counts sum to the
total of 1. -/
theorem by_risk_counts_sum_to_total_witness :
    sampleDf.rows ≠ [] ∧
      (compute_inspection_summary sampleDf emptyMeta).1.by_risk.High +
        (compute_inspection_summary sampleDf emptyMeta).1.by_risk.Medium +
        (compute_inspection_summary sampleDf emptyMeta).1.by_risk.Low =
        (compute_inspection_summary sampleDf emptyMeta).1.overview.total_defects :=
  ⟨by decide, by_risk_counts_sum_to_total sampleDf emptyMeta (by decide)⟩

/-! ## C4 -/

/-- Counterexample to C4 as stated: an empty table (zero rows) that kept
its `depth_pct` header yields `float(mean of an empty series)` — pandas'
`NaN`, not Python's `None` — for `avg_depth_pct`, so not every statistic of
a zero-row table is null. -/
theorem empty_table_stat_is_nan_not_null :
    (compute_inspection_summary ⟨["depth_pct"], []⟩ emptyMeta).1.statistics.avg_depth_pct
        = Stat.nanv ∧
      Stat.nanv ≠ Stat.null ∧
      (compute_inspection_summary ⟨["depth_pct"], []⟩ emptyMeta).1.overview.total_defects = 0 := by
  refine ⟨by decide, by decide, by decide⟩

/-- C4 (amended): the aggregator on any zero-row table succeeds and returns
`total_defects = 0` and all three risk counts 0; each of the five scalar
statistics is null exactly when its source column is absent, and `NaN`
(empty aggregation) when the column is present with zero rows. -/
theorem empty_table_summary (cols : List String) (meta : Meta) :
    (compute_inspection_summary ⟨cols, []⟩ meta).1.overview.total_defects = 0 ∧
    (compute_inspection_summary ⟨cols, []⟩ meta).1.by_risk.High = 0 ∧
    (compute_inspection_summary ⟨cols, []⟩ meta).1.by_risk.Medium = 0 ∧
    (compute_inspection_summary ⟨cols, []⟩ meta).1.by_risk.Low = 0 ∧
    (compute_inspection_summary ⟨cols, []⟩ meta).1.statistics.avg_depth_pct
      = (if "depth_pct" ∈ cols then Stat.nanv else Stat.null) ∧
    (compute_inspection_summary ⟨cols, []⟩ meta).1.statistics.max_depth_pct
      = (if "depth_pct" ∈ cols then Stat.nanv else Stat.null) ∧
    (compute_inspection_summary ⟨cols, []⟩ meta).1.statistics.avg_erf_b31g
      = (if "erf_b31g" ∈ cols then Stat.nanv else Stat.null) ∧
    (compute_inspection_summary ⟨cols, []⟩ meta).1.statistics.min_erf_b31g
      = (if "erf_b31g" ∈ cols then Stat.nanv else Stat.null) ∧
    (compute_inspection_summary ⟨cols, []⟩ meta).1.statistics.avg_wall_remaining_mm
      = (if "wall_thickness_remaining_mm" ∈ cols then Stat.nanv else Stat.null) := by
  refine ⟨rfl, rfl, rfl, rfl, ?_, ?_, ?_, ?_, ?_⟩ <;>
    simp [compute_inspection_summary, statIf, seriesMean, seriesMax, seriesMin, colVals]

/-! ## C5 -/

/-- C5: the numeric coercion never raises (it is a total function into a
value-or-missing result): `None`/`NaN` and the empty string coerce to the
missing marker; an `int` or `float` passes through as a float; any other
string is comma-to-dot replaced, stripped and parsed, a parse failure
giving the missing marker (`none` — never zero); and `"12,5"` coerces to
12.5. -/
theorem clean_numeric_spec :
    clean_numeric PyVal.pynone = none ∧
    clean_numeric PyVal.nan = none ∧
    clean_numeric (PyVal.str "") = none ∧
    (∀ n : ℤ, clean_numeric (PyVal.int n) = some (n : ℚ)) ∧
    (∀ q : ℚ, clean_numeric (PyVal.float q) = some q) ∧
    (∀ s : String, clean_numeric (PyVal.str s) =
      if s = "" then none else pyFloat (pyStrip (replaceCommaDot s.data))) ∧
    clean_numeric (PyVal.str "12,5") = some (mkRat 125 10) ∧
    clean_numeric (PyVal.str "not a number") = none := by
  refine ⟨rfl, rfl, by decide, ?_, ?_, ?_, by decide, by decide⟩
  · intro n
    simp [clean_numeric, pd_isna]
  · intro q
    simp [clean_numeric, pd_isna]
  · intro s
    by_cases hs : s = ""
    · subst hs
      decide
    · simp [clean_numeric, pd_isna, hs]

/-! ## C6 -/

/-- C6: with a prior summary present the comparator flags
`has_previous = true` and reports the differences in total and High-risk
counts; each percentage change is the rounded-to-one-decimal relative
change when the prior value is positive, and exactly 0 when the prior value
is zero, whatever the current value. -/
theorem compare_with_previous_spec (curr prev : Summary) :
    (compare_with_previous curr (some prev)).has_previous = true ∧
    (compare_with_previous curr (some prev)).defects_change
      = (curr.overview.total_defects : ℤ) - (prev.overview.total_defects : ℤ) ∧
    (compare_with_previous curr (some prev)).high_risk_change
      = (curr.by_risk.High : ℤ) - (prev.by_risk.High : ℤ) ∧
    (prev.overview.total_defects = 0 →
      (compare_with_previous curr (some prev)).defects_change_pct = some 0) ∧
    (prev.by_risk.High = 0 →
      (compare_with_previous curr (some prev)).high_risk_change_pct = some 0) ∧
    (0 < prev.overview.total_defects →
      (compare_with_previous curr (some prev)).defects_change_pct
        = some (pyRound1 (((curr.overview.total_defects : ℚ) - (prev.overview.total_defects : ℚ))
            / (prev.overview.total_defects : ℚ) * 100))) ∧
    (0 < prev.by_risk.High →
      (compare_with_previous curr (some prev)).high_risk_change_pct
        = some (pyRound1 (((curr.by_risk.High : ℚ) - (prev.by_risk.High : ℚ))
            / (prev.by_risk.High : ℚ) * 100))) := by
  refine ⟨rfl, rfl, rfl, ?_, ?_, ?_, ?_⟩ <;> intro h <;>
    simp [compare_with_previous, h, pyRound1, roundHalfEven]

/-- Witness for C6: with `prev_total = 0` and `curr_total = 5` the delta is
`defects_change = 5`, `defects_change_pct = 0` and `has_previous = true`. -/
theorem compare_with_previous_spec_witness :
    (compare_with_previous (summaryOf 5 0) (some (summaryOf 0 0))).defects_change = 5 ∧
    (compare_with_previous (summaryOf 5 0) (some (summaryOf 0 0))).defects_change_pct = some 0 ∧
    (compare_with_previous (summaryOf 5 0) (some (summaryOf 0 0))).has_previous = true := by
  obtain ⟨h1, h2, -, h4, -, -, -⟩ := compare_with_previous_spec (summaryOf 5 0) (summaryOf 0 0)
  exact ⟨by rw [h2]; decide, h4 (by decide), h1⟩

/-! ## C8 -/

/-- Counterexample to C8 as stated: after running the aggregator on the
one-row sample table, the caller's frame is exactly the input — line 139 of
analysis.py enriches a `.copy()` — so the caller's records do not carry the
derived `risk_class` / `repair_priority` columns. -/
theorem caller_frame_not_enriched :
    (compute_inspection_summary sampleDf emptyMeta).2 = sampleDf ∧
      "risk_class" ∉ (compute_inspection_summary sampleDf emptyMeta).2.cols ∧
      "repair_priority" ∉ (compute_inspection_summary sampleDf emptyMeta).2.cols := by
  refine ⟨rfl, by decide, by decide⟩

/-- C8 (amended): the aggregator does not mutate the caller's table — it
enriches a copy.  The caller's frame after the call equals the input, and
the enriched copy, attached to the summary as its `table`, carries the
`risk_class` and `repair_priority` columns while preserving every source
field of every record. -/
theorem aggregator_enriches_copy_only (df : Defects) (meta : Meta) :
    (compute_inspection_summary df meta).2 = df ∧
    "risk_class" ∈ (compute_inspection_summary df meta).1.table.cols ∧
    "repair_priority" ∈ (compute_inspection_summary df meta).1.table.cols ∧
    (compute_inspection_summary df meta).1.table.rows.map Prod.fst = df.rows ∧
    (compute_inspection_summary df meta).1.table.rows.map (fun er => er.2.1)
      = df.rows.map assign_risk_class := by
  refine ⟨rfl, ?_, ?_, ?_, ?_⟩ <;>
    simp [compute_inspection_summary, Function.comp_def, List.map_id]

/-! ## C9 -/

/-- C9: the normalizer renames every raw header to the canonical target of
the first mapping entry, in the mapping's declared order, whose key is a
case-insensitive substring of the header — at most one entry applies, the
`break` stopping the scan — and a header matching no key keeps its original
name (`renameColumnSpec` states the spec's wording; `renameColumn` is the
source's scan). -/
theorem renameColumn_is_first_match (header : String) :
    renameColumn header = renameColumnSpec header := by
  unfold renameColumn renameColumnSpec
  rw [renameFor_eq_find]
  cases COLUMN_MAPPING.find?
      (fun kv => containsSub (pyLower kv.1.data) (pyLower header.data)) <;> rfl
